import Mathlib

/-!
Shallow embedding of the authentication / session / permission / orchestration
core of the Banking Relationship Manager assistant.

Modelling conventions:
* timestamps are `Nat` seconds (`datetime.now()` becomes an explicit `now`
  argument threaded through each operation that reads the clock);
* the PostgreSQL `customers` table is a `List CustomerRow` whose `tier` and
  `account_status` columns are raw strings, converted to the Python enums at
  profile-construction time exactly where the source converts them;
* Python dicts used as key/value maps (`session_tokens`, the legacy customer
  database) are association lists with first-match lookup and key-filtering
  insert/delete, matching dict semantics;
* `jwt.encode` of the payload `(customer_id, iat = now, exp = now + 24h)` is
  modelled as an injective string encoding of that payload;
* external collaborators (the LLM intent resolver and the query handler) are
  function parameters of the orchestrator, as the orchestrator treats them as
  opaque total calls.
-/

/-- `CustomerTier` enum of the source (values "regular", "premium", "hni", "vip"). -/
inductive CustomerTier where
  | regular
  | premium
  | hni
  | vip
deriving DecidableEq, Repr

/-- The `.value` string of a `CustomerTier`, as in the Python enum. -/
def CustomerTier.value : CustomerTier → String
  | .regular => "regular"
  | .premium => "premium"
  | .hni => "hni"
  | .vip => "vip"

/-- `CustomerTier(s)` construction from the raw database string; `none` models
the `ValueError` raised on an unknown value. -/
def CustomerTier.ofString? : String → Option CustomerTier
  | "regular" => some .regular
  | "premium" => some .premium
  | "hni" => some .hni
  | "vip" => some .vip
  | _ => none

/-- `AccountStatus` enum of the source (values "active", "suspended", "frozen", "closed"). -/
inductive AccountStatus where
  | active
  | suspended
  | frozen
  | closed
deriving DecidableEq, Repr

/-- The `.value` string of an `AccountStatus`. -/
def AccountStatus.value : AccountStatus → String
  | .active => "active"
  | .suspended => "suspended"
  | .frozen => "frozen"
  | .closed => "closed"

/-- `AccountStatus(s)` construction from the raw database string. -/
def AccountStatus.ofString? : String → Option AccountStatus
  | "active" => some .active
  | "suspended" => some .suspended
  | "frozen" => some .frozen
  | "closed" => some .closed
  | _ => none

/-- One row of the PostgreSQL `customers` table, with the columns read by the
authentication agent.  `tier` and `account_status` are the raw column strings. -/
structure CustomerRow where
  customer_id : String
  name : String
  email : String
  phone : String
  tier : String
  account_status : String
  auth_token : String
  last_login : Option Nat
  failed_attempts : Nat
  locked_until : Option Nat
deriving DecidableEq, Repr

/-- The `CustomerProfile` dataclass of the source. -/
structure CustomerProfile where
  customer_id : String
  name : String
  email : String
  phone : String
  tier : CustomerTier
  account_status : AccountStatus
  last_login : Option Nat := none
  failed_attempts : Nat := 0
  locked_until : Option Nat := none
deriving DecidableEq, Repr

/-- The `AuthResult` dataclass of the source. -/
structure AuthResult where
  is_authenticated : Bool
  customer_profile : Option CustomerProfile := none
  error_message : Option String := none
  session_token : Option String := none
deriving DecidableEq, Repr

/-- Lookup in a Python-dict-like association list (first match wins). -/
def dictLookup {α : Type} (m : List (String × α)) (k : String) : Option α :=
  (m.find? (fun p => p.1 == k)).map (fun p => p.2)

/-- Python dict assignment `m[k] = v`: the key maps to `v` and old bindings of
`k` are gone. -/
def dictInsert {α : Type} (m : List (String × α)) (k : String) (v : α) : List (String × α) :=
  (k, v) :: m.filter (fun p => p.1 != k)

/-- Python `del m[k]`. -/
def dictRemove {α : Type} (m : List (String × α)) (k : String) : List (String × α) :=
  m.filter (fun p => p.1 != k)

/-- In-place mutation of the object stored under key `k` of a Python dict. -/
def dictMapAt {α : Type} (m : List (String × α)) (k : String) (f : α → α) : List (String × α) :=
  m.map (fun p => if p.1 == k then (p.1, f p.2) else p)

namespace PostgreSQLAuthenticationAgent

/-- Mutable state of `PostgreSQLAuthenticationAgent`: the `customers` table in
the database plus the in-process `session_tokens` dict (token -> customer id). -/
structure AgentState where
  customers : List CustomerRow
  session_tokens : List (String × String)
deriving DecidableEq, Repr

/-- `SELECT ... FROM customers WHERE customer_id = %s` followed by `fetchone()`. -/
def findCustomer (db : List CustomerRow) (cid : String) : Option CustomerRow :=
  db.find? (fun r => r.customer_id == cid)

/-- `UPDATE customers SET ... WHERE customer_id = %s`: applies `f` to every row
with the given id. -/
def updateCustomer (db : List CustomerRow) (cid : String) (f : CustomerRow → CustomerRow) :
    List CustomerRow :=
  db.map (fun r => if r.customer_id == cid then f r else r)

/-- The lock test in the source: `locked_until` is truthy (a datetime object
always is) and `datetime.now()` is before it. -/
def lockedCheck (locked_until : Option Nat) (now : Nat) : Bool :=
  match locked_until with
  | some t => now < t
  | none => false

/-- `_verify_auth_token`: plain string comparison between the stored and the
presented credential. -/
def verify_auth_token (stored_token provided_token : String) : Bool :=
  stored_token == provided_token

/-- `_generate_session_token`: `jwt.encode` of the payload
`(customer_id, exp = now + 24h, iat = now)`, modelled as an injective encoding
of that payload into a string. -/
def generate_session_token (customer_id : String) (now : Nat) : String :=
  "jwt." ++ customer_id ++ "." ++ toString now ++ "." ++ toString (now + 24 * 3600)

/-- The expiry instant embedded in a session token issued at `iat` (24 hours). -/
def session_token_exp (iat : Nat) : Nat :=
  iat + 24 * 3600

/-- Builds the `CustomerProfile` the success path of `authenticate_customer`
constructs after the reset update (`last_login = now`, counters cleared). -/
def freshProfile (c : CustomerRow) (tier : CustomerTier) (now : Nat) : CustomerProfile :=
  { customer_id := c.customer_id
    name := c.name
    email := c.email
    phone := c.phone
    tier := tier
    account_status := AccountStatus.active
    last_login := some now
    failed_attempts := 0
    locked_until := none }

/-- `authenticate_customer(customer_id, auth_token)` at clock instant `now`,
returning the `AuthResult` together with the successor state (database writes
are committed, the session dict may gain a token). -/
def authenticate_customer (st : AgentState) (customer_id auth_token : String) (now : Nat) :
    AuthResult × AgentState :=
  match findCustomer st.customers customer_id with
  | none =>
      ({ is_authenticated := false, error_message := some "Customer not found" }, st)
  | some c =>
      if lockedCheck c.locked_until now then
        ({ is_authenticated := false
           error_message := some "Account is temporarily locked due to multiple failed attempts" },
         st)
      else if c.account_status != "active" then
        ({ is_authenticated := false
           error_message := some ("Account is " ++ c.account_status) }, st)
      else if verify_auth_token c.auth_token auth_token then
        let db' := updateCustomer st.customers customer_id
          (fun r => { r with failed_attempts := 0, locked_until := none, last_login := some now })
        match CustomerTier.ofString? c.tier with
        | none =>
            -- `CustomerTier(...)` raises after the reset was committed; the
            -- generic handler returns the service error, no token is stored.
            ({ is_authenticated := false, error_message := some "Authentication service error" },
             { st with customers := db' })
        | some tier =>
            let tok := generate_session_token customer_id now
            ({ is_authenticated := true
               customer_profile := some (freshProfile c tier now)
               session_token := some tok },
             { customers := db', session_tokens := dictInsert st.session_tokens tok customer_id })
      else
        let n := c.failed_attempts + 1
        let lu : Option Nat := if n ≥ 3 then some (now + 15 * 60) else none
        ({ is_authenticated := false
           error_message := some "Invalid authentication credentials" },
         { st with customers := (updateCustomer st.customers customer_id
              (fun r => { r with failed_attempts := n, locked_until := lu })) })

/-- `get_customer_profile`: re-fetches the row and converts the enum columns;
a conversion `ValueError` is swallowed into `None` by the handler. -/
def get_customer_profile (st : AgentState) (customer_id : String) : Option CustomerProfile :=
  match findCustomer st.customers customer_id with
  | none => none
  | some c =>
      match CustomerTier.ofString? c.tier, AccountStatus.ofString? c.account_status with
      | some tier, some status =>
          some { customer_id := c.customer_id
                 name := c.name
                 email := c.email
                 phone := c.phone
                 tier := tier
                 account_status := status
                 last_login := c.last_login
                 failed_attempts := c.failed_attempts
                 locked_until := c.locked_until }
      | _, _ => none

/-- `verify_session_token`: membership test in the `session_tokens` dict, then
a fresh profile fetch.  The body consults no clock. -/
def verify_session_token (st : AgentState) (session_token : String) : Option CustomerProfile :=
  match dictLookup st.session_tokens session_token with
  | some cid => get_customer_profile st cid
  | none => none

/-- The observable behaviour of `verify_session_token` at clock instant `now`:
the source reads no clock in this method, so the result is the same function at
every instant. -/
def verify_at (_now : Nat) (st : AgentState) (session_token : String) : Option CustomerProfile :=
  verify_session_token st session_token

/-- `logout`: deletes the token from the dict, reporting whether it was present. -/
def logout (st : AgentState) (session_token : String) : Bool × AgentState :=
  if (dictLookup st.session_tokens session_token).isSome then
    (true, { st with session_tokens := dictRemove st.session_tokens session_token })
  else
    (false, st)

/-- The permission matrix of `check_permissions`, keyed by tier. -/
def permissions_for : CustomerTier → List String
  | .regular => ["ACCOUNT_BALANCE", "TRANSACTION_HISTORY", "GENERAL_BANKING"]
  | .premium => ["ACCOUNT_BALANCE", "TRANSACTION_HISTORY", "GENERAL_BANKING",
                 "CARD_SERVICES", "INVESTMENT_QUERY"]
  | .hni => ["ACCOUNT_BALANCE", "TRANSACTION_HISTORY", "GENERAL_BANKING",
             "CARD_SERVICES", "INVESTMENT_QUERY", "REMITTANCE_STATUS"]
  | .vip => ["ACCOUNT_BALANCE", "TRANSACTION_HISTORY", "GENERAL_BANKING",
             "CARD_SERVICES", "INVESTMENT_QUERY", "REMITTANCE_STATUS",
             "LOAN_INQUIRY"]

/-- `check_permissions(customer_profile, query_type)`. -/
def check_permissions (customer_profile : CustomerProfile) (query_type : String) : Bool :=
  (permissions_for customer_profile.tier).contains query_type

end PostgreSQLAuthenticationAgent

namespace AuthenticationAgent

/-!
The legacy in-memory `AuthenticationAgent` (agents/authentication_agent.py):
same dataclasses and lockout logic as the PostgreSQL agent, but the customer
store is an in-process dict of `CustomerProfile`s that carry no credential
field, and `_verify_auth_token` compares the presented credential against the
fixed demo string "password123" only.
-/

/-- Mutable state of the legacy agent: the mock `customer_database` dict and
the `session_tokens` dict. -/
structure LegacyState where
  customer_database : List (String × CustomerProfile)
  session_tokens : List (String × String)
deriving DecidableEq, Repr

/-- `_initialize_customer_database` of the source. -/
def initial_customer_database : List (String × CustomerProfile) :=
  [("CUST001",
    { customer_id := "CUST001", name := "John Doe", email := "john.doe@email.com"
      phone := "+1234567890", tier := .hni, account_status := .active }),
   ("CUST002",
    { customer_id := "CUST002", name := "Jane Smith", email := "jane.smith@email.com"
      phone := "+1234567891", tier := .premium, account_status := .active }),
   ("CUST003",
    { customer_id := "CUST003", name := "Bob Johnson", email := "bob.johnson@email.com"
      phone := "+1234567892", tier := .regular, account_status := .active }),
   ("CUST004",
    { customer_id := "CUST004", name := "Alice Brown", email := "alice.brown@email.com"
      phone := "+1234567893", tier := .vip, account_status := .active }),
   ("CUST005",
    { customer_id := "CUST005", name := "Charlie Wilson", email := "charlie.wilson@email.com"
      phone := "+1234567894", tier := .regular, account_status := .suspended })]

/-- Legacy `_verify_auth_token(customer_id, auth_token)`: accepts exactly the
fixed demo credential, for every customer id. -/
def verify_auth_token (_customer_id auth_token : String) : Bool :=
  auth_token == "password123"

/-- Legacy `authenticate_customer` at clock instant `now`.  The lockout logic
mirrors the PostgreSQL agent; the credential check is the fixed-string one. -/
def authenticate_customer (st : LegacyState) (customer_id auth_token : String) (now : Nat) :
    AuthResult × LegacyState :=
  match dictLookup st.customer_database customer_id with
  | none =>
      ({ is_authenticated := false, error_message := some "Customer not found" }, st)
  | some customer =>
      if PostgreSQLAuthenticationAgent.lockedCheck customer.locked_until now then
        ({ is_authenticated := false
           error_message := some "Account is temporarily locked due to multiple failed attempts" },
         st)
      else if customer.account_status != AccountStatus.active then
        ({ is_authenticated := false
           error_message := some ("Account is " ++ customer.account_status.value) }, st)
      else if verify_auth_token customer_id auth_token then
        let customer' := { customer with
          failed_attempts := 0, locked_until := none, last_login := some now }
        let tok := PostgreSQLAuthenticationAgent.generate_session_token customer_id now
        ({ is_authenticated := true
           customer_profile := some customer'
           session_token := some tok },
         { customer_database := dictMapAt st.customer_database customer_id (fun _ => customer')
           session_tokens := dictInsert st.session_tokens tok customer_id })
      else
        let n := customer.failed_attempts + 1
        let lu : Option Nat :=
          if n ≥ 3 then some (now + 15 * 60) else customer.locked_until
        ({ is_authenticated := false
           error_message := some "Invalid authentication credentials" },
         { st with customer_database := (dictMapAt st.customer_database customer_id
            (fun c => { c with failed_attempts := n, locked_until := lu })) })

end AuthenticationAgent

namespace Config

/-- `Config.APOLOGY_MESSAGE` (the canned deflection text). -/
def APOLOGY_MESSAGE : String :=
  "\n    I apologize, but I\x27m unable to assist with this particular query at the moment. \n    As your Relationship Manager, I\x27ll personally follow up with you to address this matter. \n    Please expect a call from me within the next business day to ensure we provide you with the best possible service.\n    "

/-- `Config.SUPPORTED_INTENTS`. -/
def SUPPORTED_INTENTS : List String :=
  ["REMITTANCE_STATUS", "ACCOUNT_BALANCE", "TRANSACTION_HISTORY", "GENERAL_BANKING"]

end Config

namespace IntentClassifierAgent

/-- The `valid_intents` vocabulary of `classify_intent`. -/
def valid_intents : List String :=
  ["REMITTANCE_STATUS", "ACCOUNT_BALANCE", "TRANSACTION_HISTORY",
   "INVESTMENT_QUERY", "LOAN_INQUIRY", "CARD_SERVICES",
   "GENERAL_BANKING", "OUT_OF_SCOPE"]

/-- `classify_intent`: the external LLM call — including the
`.strip().upper()` normalisation of its raw reply, which is folded into the
oracle parameter `llm` — validated against the vocabulary, defaulting to
OUT_OF_SCOPE.  Quantifying `llm` over all string functions covers every
normalised reply. -/
def classify_intent (llm : String → String) (customer_query : String) : String :=
  let classification := llm customer_query
  if valid_intents.contains classification then classification else "OUT_OF_SCOPE"

/-- `is_supported_intent`. -/
def is_supported_intent (intent : String) : Bool :=
  Config.SUPPORTED_INTENTS.contains intent

end IntentClassifierAgent

namespace BankingRMAgent

/-- One entry of the `conversation_history` ledger of the orchestrator, and equally the
dictionary returned by `process_customer_query`.  The source builds plain
dicts whose key sets differ between the early-return paths and the recorded
path, so every key that is ever absent is an `Option` defaulting to `none`
(key absent). -/
structure ResponseData where
  response : String
  intent : String
  supported : Option Bool := none
  is_supported : Option Bool := none
  customer_id : Option String := none
  customer_name : Option String := none
  customer_profile : Option CustomerProfile := none
  timestamp : Option Nat := none
  query : Option String := none
  error : Option String := none
deriving DecidableEq, Repr

/-- State of `BankingRMAgent`: its `PostgreSQLAuthenticationAgent` plus the
in-process `conversation_history` ledger. -/
structure OrchState where
  auth : PostgreSQLAuthenticationAgent.AgentState
  conversation_history : List ResponseData
deriving DecidableEq, Repr

/-- Python truthiness of an optional string argument (absent or empty is falsy). -/
def truthy : Option String → Bool
  | none => false
  | some s => s != ""

/-- Python `str(...)` of an optional value interpolated into an f-string. -/
def pyStrOpt : Option String → String
  | some s => s
  | none => "None"

/-- The early-return dict of an invalid or expired session token. -/
def sessionExpiredEntry : ResponseData :=
  { response := "Session expired. Please authenticate again."
    intent := "AUTHENTICATION_REQUIRED"
    supported := some false
    customer_profile := none
    error := some "Invalid or expired session token" }

/-- The early-return dict of a failed credential authentication. -/
def authFailedEntry (r : AuthResult) : ResponseData :=
  { response := "Authentication failed: " ++ pyStrOpt r.error_message
    intent := "AUTHENTICATION_FAILED"
    supported := some false
    customer_profile := none
    error := r.error_message }

/-- The early-return dict of a permission denial. -/
def permissionDeniedEntry (p : CustomerProfile) (intent : String) : ResponseData :=
  { response := "Access denied. Your account tier (" ++ p.tier.value ++
      ") does not have permission to access this service."
    intent := intent
    supported := some false
    customer_profile := some p
    error := some "Insufficient permissions" }

/-- Step 0 of `process_customer_query`: identification.  Runs only when a
truthy customer id and some truthy credential material are supplied; a
truthy session token takes the verification branch, otherwise the credential
branch runs the authenticating agent (whose state may change even on failure).
`Except.error` is the early return of the corresponding dict. -/
def identifyStep (auth : PostgreSQLAuthenticationAgent.AgentState)
    (customer_id auth_token session_token : Option String) (now : Nat) :
    Except (ResponseData × PostgreSQLAuthenticationAgent.AgentState)
           (Option CustomerProfile × PostgreSQLAuthenticationAgent.AgentState) :=
  if truthy customer_id && (truthy auth_token || truthy session_token) then
    if truthy session_token then
      match PostgreSQLAuthenticationAgent.verify_session_token auth (session_token.getD "") with
      | some p => .ok (some p, auth)
      | none => .error (sessionExpiredEntry, auth)
    else
      let ra := PostgreSQLAuthenticationAgent.authenticate_customer auth
        (customer_id.getD "") (auth_token.getD "") now
      if ra.1.is_authenticated then .ok (ra.1.customer_profile, ra.2)
      else .error (authFailedEntry ra.1, ra.2)
  else .ok (none, auth)

/-- `process_customer_query(customer_query, customer_id, customer_name,
auth_token, session_token)` at clock instant `now`.  The external intent
classifier LLM and query handler are the parameters `llm` and `handler`. -/
def process_customer_query (llm : String → String)
    (handler : String → String → Option String → String)
    (st : OrchState) (customer_query : String)
    (customer_id customer_name auth_token session_token : Option String)
    (now : Nat) : ResponseData × OrchState :=
  match identifyStep st.auth customer_id auth_token session_token now with
  | .error ea => (ea.1, { st with auth := ea.2 })
  | .ok pa =>
      let customer_profile := pa.1
      let intent := IntentClassifierAgent.classify_intent llm customer_query
      let is_supported := IntentClassifierAgent.is_supported_intent intent
      let proceed : Unit → ResponseData × OrchState := fun _ =>
        let response :=
          if is_supported then handler customer_query intent customer_id
          else Config.APOLOGY_MESSAGE
        let response_data : ResponseData :=
          { response := response
            intent := intent
            supported := some is_supported
            customer_id := customer_id
            customer_name := customer_name
            customer_profile := customer_profile
            timestamp := some now
            query := some customer_query }
        (response_data,
         { auth := pa.2
           conversation_history := st.conversation_history ++ [response_data] })
      match customer_profile with
      | some p =>
          if is_supported && !(PostgreSQLAuthenticationAgent.check_permissions p intent) then
            (permissionDeniedEntry p intent, { st with auth := pa.2 })
          else proceed ()
      | none => proceed ()

/-- Python `a / b` over ints coerced to a rational; `none` models the
`ZeroDivisionError` raised when the denominator is zero. -/
def pyDiv (a b : Nat) : Option ℚ :=
  if b = 0 then none else some ((a : ℚ) / (b : ℚ))

/-- The dict returned by `get_agent_statistics`.  The Python
`intent_counts` dict is modelled by its lookup function (label to count,
absent keys at 0). -/
structure AgentStatistics where
  total_queries : Nat
  supported_queries : Nat
  out_of_scope_queries : Nat
  support_rate : Option ℚ
  intent_distribution : String → Nat
  last_updated : Nat

/-- `get_agent_statistics`: every figure is recomputed by scanning
`conversation_history`.  Note the scan for `supported_queries` reads the key
"is_supported", while recorded entries carry the key "supported". -/
def get_agent_statistics (st : OrchState) (now : Nat) : AgentStatistics :=
  let total_queries := st.conversation_history.length
  let supported_queries :=
    (st.conversation_history.filter (fun q => q.is_supported == some true)).length
  let out_of_scope_queries :=
    (st.conversation_history.filter (fun q => q.intent == "OUT_OF_SCOPE")).length
  { total_queries := total_queries
    supported_queries := supported_queries
    out_of_scope_queries := out_of_scope_queries
    support_rate :=
      if total_queries > 0 then pyDiv supported_queries total_queries else some 0
    intent_distribution :=
      st.conversation_history.foldl
        (fun m e => fun i => if i == e.intent then m i + 1 else m i) (fun _ => 0)
    last_updated := now }

/-- `reset_conversation_history`. -/
def reset_conversation_history (st : OrchState) : OrchState :=
  { st with conversation_history := [] }

end BankingRMAgent

/-! ## Shared lemmas -/

/-- The rank of a tier in the entitlement order Regular < Premium < HNI < VIP. -/
def tierRank : CustomerTier → Nat
  | .regular => 0
  | .premium => 1
  | .hni => 2
  | .vip => 3

theorem dictLookup_dictRemove {α : Type} (m : List (String × α)) (k : String) :
    dictLookup (dictRemove m k) k = none := by
  simp only [dictLookup, dictRemove, Option.map_eq_none']
  rw [List.find?_eq_none]
  intro x hx
  have hq := List.of_mem_filter hx
  simpa using hq

theorem findCustomer_updateCustomer (db : List CustomerRow) (cid : String)
    (f : CustomerRow → CustomerRow) (hf : ∀ r, (f r).customer_id = r.customer_id) :
    PostgreSQLAuthenticationAgent.findCustomer
        (PostgreSQLAuthenticationAgent.updateCustomer db cid f) cid =
      (PostgreSQLAuthenticationAgent.findCustomer db cid).map f := by
  induction db with
  | nil => rfl
  | cons h t ih =>
      simp only [PostgreSQLAuthenticationAgent.findCustomer,
        PostgreSQLAuthenticationAgent.updateCustomer, List.map, List.find?_cons] at *
      by_cases hc : h.customer_id = cid
      · have hb : (h.customer_id == cid) = true := by simpa using hc
        have hfb : ((f h).customer_id == cid) = true := by simp [hf, hc]
        simp [hb, hfb]
      · have hb : (h.customer_id == cid) = false := by simpa using hc
        simp only [hb, if_false, cond_false]
        simpa [hb] using ih

/-- Specialisation of `findCustomer_updateCustomer` to the failed-attempt
write of `authenticate_customer`; stated without a side condition so it can
be applied by rewriting. -/
theorem findCustomer_update_fail (db : List CustomerRow) (cid : String)
    (n : Nat) (lu : Option Nat) :
    PostgreSQLAuthenticationAgent.findCustomer
        (PostgreSQLAuthenticationAgent.updateCustomer db cid
          (fun r => { r with failed_attempts := n, locked_until := lu })) cid =
      (PostgreSQLAuthenticationAgent.findCustomer db cid).map
        (fun r => { r with failed_attempts := n, locked_until := lu }) :=
  findCustomer_updateCustomer db cid
    (fun r => { r with failed_attempts := n, locked_until := lu }) (fun _ => rfl)

/-! ## C8 -/

/-- C8: the permission check is monotonic in the tier order
Regular < Premium < HighNetWorth < VeryImportant — whenever a lower tier is
allowed a capability, every strictly higher tier is allowed it too — and every
allowed-capability list of every tier is defined and non-empty. -/
theorem c8_permission_matrix_monotone :
    (∀ (p q : CustomerProfile) (c : String), tierRank p.tier < tierRank q.tier →
        PostgreSQLAuthenticationAgent.check_permissions p c = true →
        PostgreSQLAuthenticationAgent.check_permissions q c = true) ∧
    (∀ t : CustomerTier, PostgreSQLAuthenticationAgent.permissions_for t ≠ []) := by
  constructor
  · intro p q c hlt hc
    revert hc hlt
    cases hp : p.tier <;> cases hq : q.tier <;>
      simp_all [PostgreSQLAuthenticationAgent.check_permissions,
        PostgreSQLAuthenticationAgent.permissions_for, tierRank,
        List.contains_eq_any_beq, List.any] <;> tauto
  · intro t
    cases t <;> simp [PostgreSQLAuthenticationAgent.permissions_for]

/-- Witness for C8 at a concrete pair of tiers and capability. -/
theorem c8_permission_matrix_monotone_witness :
    tierRank CustomerTier.regular < tierRank CustomerTier.vip ∧
    PostgreSQLAuthenticationAgent.check_permissions
      { customer_id := "CUST001", name := "John Doe", email := "e", phone := "p"
        tier := .regular, account_status := .active } "ACCOUNT_BALANCE" = true ∧
    PostgreSQLAuthenticationAgent.check_permissions
      { customer_id := "CUST004", name := "Alice Brown", email := "e", phone := "p"
        tier := .vip, account_status := .active } "ACCOUNT_BALANCE" = true := by
  refine ⟨by decide, by decide, ?_⟩
  exact c8_permission_matrix_monotone.1
    { customer_id := "CUST001", name := "John Doe", email := "e", phone := "p"
      tier := .regular, account_status := .active }
    { customer_id := "CUST004", name := "Alice Brown", email := "e", phone := "p"
      tier := .vip, account_status := .active }
    "ACCOUNT_BALANCE" (by decide) (by decide)

/-! ## C10 -/

/-- C10: the statistics operation is total on every ledger state — the support
rate is always defined (the division is guarded) — and on the empty ledger
produced by `reset_conversation_history` it reports total 0 and rate 0. -/
theorem c10_statistics_total :
    ∀ (st : BankingRMAgent.OrchState) (now : Nat),
      (BankingRMAgent.get_agent_statistics st now).support_rate.isSome = true ∧
      (BankingRMAgent.get_agent_statistics
          (BankingRMAgent.reset_conversation_history st) now).total_queries = 0 ∧
      (BankingRMAgent.get_agent_statistics
          (BankingRMAgent.reset_conversation_history st) now).support_rate = some 0 := by
  intro st now
  refine ⟨?_, ?_, ?_⟩
  · simp only [BankingRMAgent.get_agent_statistics, BankingRMAgent.pyDiv]
    by_cases h : st.conversation_history.length > 0
    · simp [h, Nat.pos_iff_ne_zero.mp h]
    · simp [h]
  · rfl
  · rfl

/-! ## Single-step behaviour of `authenticate_customer` (PostgreSQL agent) -/

theorem authenticate_locked (st : PostgreSQLAuthenticationAgent.AgentState)
    (cid cred : String) (now : Nat) (row : CustomerRow)
    (h0 : PostgreSQLAuthenticationAgent.findCustomer st.customers cid = some row)
    (hl : PostgreSQLAuthenticationAgent.lockedCheck row.locked_until now = true) :
    PostgreSQLAuthenticationAgent.authenticate_customer st cid cred now =
      ({ is_authenticated := false
         error_message := some "Account is temporarily locked due to multiple failed attempts" },
       st) := by
  unfold PostgreSQLAuthenticationAgent.authenticate_customer
  rw [h0]
  simp [hl]

theorem authenticate_wrong_cred (st : PostgreSQLAuthenticationAgent.AgentState)
    (cid cred : String) (now : Nat) (row : CustomerRow)
    (h0 : PostgreSQLAuthenticationAgent.findCustomer st.customers cid = some row)
    (hl : PostgreSQLAuthenticationAgent.lockedCheck row.locked_until now = false)
    (ha : row.account_status = "active")
    (hw : cred ≠ row.auth_token) :
    PostgreSQLAuthenticationAgent.authenticate_customer st cid cred now =
      ({ is_authenticated := false
         error_message := some "Invalid authentication credentials" },
       { st with customers := (PostgreSQLAuthenticationAgent.updateCustomer st.customers cid
          (fun r =>
            { r with
                failed_attempts := row.failed_attempts + 1
                locked_until :=
                  if row.failed_attempts + 1 ≥ 3 then some (now + 15 * 60) else none })) }) := by
  unfold PostgreSQLAuthenticationAgent.authenticate_customer
  rw [h0]
  have hb : (row.account_status != "active") = false := by simp [ha]
  have hv : PostgreSQLAuthenticationAgent.verify_auth_token row.auth_token cred = false := by
    simp only [PostgreSQLAuthenticationAgent.verify_auth_token, beq_eq_false_iff_ne, ne_eq]
    exact fun h => hw h.symm
  simp [hl, hb, hv]

theorem authenticate_correct_cred (st : PostgreSQLAuthenticationAgent.AgentState)
    (cid : String) (now : Nat) (row : CustomerRow) (tier : CustomerTier)
    (h0 : PostgreSQLAuthenticationAgent.findCustomer st.customers cid = some row)
    (hl : PostgreSQLAuthenticationAgent.lockedCheck row.locked_until now = false)
    (ha : row.account_status = "active")
    (ht : CustomerTier.ofString? row.tier = some tier) :
    PostgreSQLAuthenticationAgent.authenticate_customer st cid row.auth_token now =
      ({ is_authenticated := true
         customer_profile := some (PostgreSQLAuthenticationAgent.freshProfile row tier now)
         session_token := some (PostgreSQLAuthenticationAgent.generate_session_token cid now) },
       { customers := (PostgreSQLAuthenticationAgent.updateCustomer st.customers cid
           (fun r =>
             { r with
                 failed_attempts := 0
                 locked_until := none
                 last_login := some now }))
         session_tokens := dictInsert st.session_tokens
           (PostgreSQLAuthenticationAgent.generate_session_token cid now) cid }) := by
  unfold PostgreSQLAuthenticationAgent.authenticate_customer
  rw [h0]
  have hb : (row.account_status != "active") = false := by simp [ha]
  have hv : PostgreSQLAuthenticationAgent.verify_auth_token row.auth_token row.auth_token = true := by
    simp [PostgreSQLAuthenticationAgent.verify_auth_token]
  simp [hl, hb, hv, ht]

/-! ## C5 -/

/-- C5: for every customer whose status is not Active and who is not currently
locked, authentication fails carrying the concrete status text, for every
presented credential, and the state (failed-attempt counter, lockout expiry,
last-login) is left unchanged — in the PostgreSQL agent and in the legacy
in-memory agent alike. -/
theorem c5_inactive_account_rejected :
    (∀ (st : PostgreSQLAuthenticationAgent.AgentState) (cid cred : String) (now : Nat)
        (row : CustomerRow),
       PostgreSQLAuthenticationAgent.findCustomer st.customers cid = some row →
       PostgreSQLAuthenticationAgent.lockedCheck row.locked_until now = false →
       row.account_status ≠ "active" →
       PostgreSQLAuthenticationAgent.authenticate_customer st cid cred now =
         ({ is_authenticated := false
            error_message := some ("Account is " ++ row.account_status) }, st)) ∧
    (∀ (lst : AuthenticationAgent.LegacyState) (cid cred : String) (now : Nat)
        (prof : CustomerProfile),
       dictLookup lst.customer_database cid = some prof →
       PostgreSQLAuthenticationAgent.lockedCheck prof.locked_until now = false →
       prof.account_status ≠ AccountStatus.active →
       AuthenticationAgent.authenticate_customer lst cid cred now =
         ({ is_authenticated := false
            error_message := some ("Account is " ++ prof.account_status.value) }, lst)) := by
  constructor
  · intro st cid cred now row h0 hl ha
    unfold PostgreSQLAuthenticationAgent.authenticate_customer
    rw [h0]
    have hb : (row.account_status != "active") = true := by
      simpa [bne_iff_ne] using ha
    simp [hl, hb]
  · intro lst cid cred now prof h0 hl ha
    unfold AuthenticationAgent.authenticate_customer
    rw [h0]
    have hb : (prof.account_status != AccountStatus.active) = true := by
      simpa [bne_iff_ne] using ha
    simp [hl, hb]

/-- Witness for C5: a suspended PostgreSQL row and the suspended legacy mock
customer CUST005, both rejected with the concrete status and no state change. -/
theorem c5_inactive_account_rejected_witness :
    PostgreSQLAuthenticationAgent.authenticate_customer
      { customers := [{ customer_id := "CUST900", name := "N", email := "e", phone := "p"
                        tier := "premium", account_status := "frozen", auth_token := "pw"
                        last_login := none, failed_attempts := 0, locked_until := none }]
        session_tokens := [] } "CUST900" "pw" 5 =
      ({ is_authenticated := false, error_message := some "Account is frozen" },
       { customers := [{ customer_id := "CUST900", name := "N", email := "e", phone := "p"
                         tier := "premium", account_status := "frozen", auth_token := "pw"
                         last_login := none, failed_attempts := 0, locked_until := none }]
         session_tokens := [] }) ∧
    AuthenticationAgent.authenticate_customer
      ⟨AuthenticationAgent.initial_customer_database, []⟩ "CUST005" "password123" 5 =
      ({ is_authenticated := false, error_message := some "Account is suspended" },
       ⟨AuthenticationAgent.initial_customer_database, []⟩) := by
  constructor
  · exact c5_inactive_account_rejected.1
      { customers := [{ customer_id := "CUST900", name := "N", email := "e", phone := "p"
                        tier := "premium", account_status := "frozen", auth_token := "pw"
                        last_login := none, failed_attempts := 0, locked_until := none }]
        session_tokens := [] }
      "CUST900" "pw" 5
      { customer_id := "CUST900", name := "N", email := "e", phone := "p"
        tier := "premium", account_status := "frozen", auth_token := "pw"
        last_login := none, failed_attempts := 0, locked_until := none }
      (by decide) (by decide) (by decide)
  · exact c5_inactive_account_rejected.2
      ⟨AuthenticationAgent.initial_customer_database, []⟩ "CUST005" "password123" 5
      { customer_id := "CUST005", name := "Charlie Wilson", email := "charlie.wilson@email.com"
        phone := "+1234567894", tier := .regular, account_status := .suspended }
      (by decide) (by decide) (by decide)

/-! ## C9 -/

/-- C9 (amended): in the PostgreSQL agent, authentication of an existing,
Active, unlocked customer succeeds exactly when the presented credential
equals the credential stored in the row of that customer; the legacy in-memory
agent, by contrast, compares the presented credential against the fixed demo
string "password123" only, independently of the record of the customer. -/
theorem c9_credential_comparison :
    (∀ (st : PostgreSQLAuthenticationAgent.AgentState) (cid cred : String) (now : Nat)
        (row : CustomerRow) (tier : CustomerTier),
       PostgreSQLAuthenticationAgent.findCustomer st.customers cid = some row →
       PostgreSQLAuthenticationAgent.lockedCheck row.locked_until now = false →
       row.account_status = "active" →
       CustomerTier.ofString? row.tier = some tier →
       ((PostgreSQLAuthenticationAgent.authenticate_customer st cid cred now).1.is_authenticated
          = true ↔ cred = row.auth_token)) ∧
    (∀ cid1 cid2 cred : String,
       AuthenticationAgent.verify_auth_token cid1 cred =
         AuthenticationAgent.verify_auth_token cid2 cred) ∧
    (∀ cid cred : String,
       AuthenticationAgent.verify_auth_token cid cred = true ↔ cred = "password123") := by
  refine ⟨?_, ?_, ?_⟩
  · intro st cid cred now row tier h0 hl ha ht
    by_cases hc : cred = row.auth_token
    · subst hc
      rw [authenticate_correct_cred st cid now row tier h0 hl ha ht]
      simp
    · rw [authenticate_wrong_cred st cid cred now row h0 hl ha hc]
      simp [hc]
  · intro cid1 cid2 cred
    rfl
  · intro cid cred
    simp [AuthenticationAgent.verify_auth_token]

/-- Witness for C9 at a concrete PostgreSQL row, both credential directions. -/
theorem c9_credential_comparison_witness :
    ((PostgreSQLAuthenticationAgent.authenticate_customer
        { customers := [{ customer_id := "CUST901", name := "N", email := "e", phone := "p"
                          tier := "hni", account_status := "active", auth_token := "pw901"
                          last_login := none, failed_attempts := 0, locked_until := none }]
          session_tokens := [] }
        "CUST901" "pw901" 7).1.is_authenticated = true ↔ ("pw901" : String) = "pw901") ∧
    ((PostgreSQLAuthenticationAgent.authenticate_customer
        { customers := [{ customer_id := "CUST901", name := "N", email := "e", phone := "p"
                          tier := "hni", account_status := "active", auth_token := "pw901"
                          last_login := none, failed_attempts := 0, locked_until := none }]
          session_tokens := [] }
        "CUST901" "wrong" 7).1.is_authenticated = true ↔ ("wrong" : String) = "pw901") := by
  constructor
  · exact c9_credential_comparison.1
      { customers := [{ customer_id := "CUST901", name := "N", email := "e", phone := "p"
                        tier := "hni", account_status := "active", auth_token := "pw901"
                        last_login := none, failed_attempts := 0, locked_until := none }]
        session_tokens := [] }
      "CUST901" "pw901" 7
      { customer_id := "CUST901", name := "N", email := "e", phone := "p"
        tier := "hni", account_status := "active", auth_token := "pw901"
        last_login := none, failed_attempts := 0, locked_until := none }
      CustomerTier.hni (by decide) (by decide) (by decide) (by decide)
  · exact c9_credential_comparison.1
      { customers := [{ customer_id := "CUST901", name := "N", email := "e", phone := "p"
                        tier := "hni", account_status := "active", auth_token := "pw901"
                        last_login := none, failed_attempts := 0, locked_until := none }]
        session_tokens := [] }
      "CUST901" "wrong" 7
      { customer_id := "CUST901", name := "N", email := "e", phone := "p"
        tier := "hni", account_status := "active", auth_token := "pw901"
        last_login := none, failed_attempts := 0, locked_until := none }
      CustomerTier.hni (by decide) (by decide) (by decide) (by decide)

/-- C9 counterexample: the claim fails on the legacy agent — CUST001 and
CUST003, whose mock records store no credential at all, are both
authenticated by the one fixed string "password123"; the acceptance test says
yes to "password123" even for a customer id absent from the database, hence
it is not a comparison with the stored credential of the customer. -/
theorem c9_counterexample :
    (AuthenticationAgent.authenticate_customer
        ⟨AuthenticationAgent.initial_customer_database, []⟩
        "CUST001" "password123" 0).1.is_authenticated = true ∧
    (AuthenticationAgent.authenticate_customer
        ⟨AuthenticationAgent.initial_customer_database, []⟩
        "CUST003" "password123" 0).1.is_authenticated = true ∧
    AuthenticationAgent.verify_auth_token "CUST999_ABSENT" "password123" = true ∧
    (AuthenticationAgent.authenticate_customer
        ⟨AuthenticationAgent.initial_customer_database, []⟩
        "CUST001" "some-other-credential" 0).1.is_authenticated = false := by
  refine ⟨by decide, by decide, by decide, by decide⟩

/-! ## C1 -/

/-- C1: for an Active, unlocked customer with a clean failed-attempt counter,
three wrong-credential authentications leave the counter at 3 and set the
lockout expiry to the instant of the third attempt + 15 minutes; any fourth attempt
during the lock window (with any credential) fails with the locked
classification and leaves the row — counter and expiry included — unchanged. -/
theorem c1_progressive_lockout
    (st st1 st2 st3 : PostgreSQLAuthenticationAgent.AgentState)
    (cid w1 w2 w3 : String) (t1 t2 t3 : Nat) (row : CustomerRow)
    (h0 : PostgreSQLAuthenticationAgent.findCustomer st.customers cid = some row)
    (hl : row.locked_until = none)
    (ha : row.account_status = "active")
    (hf : row.failed_attempts = 0)
    (hw1 : w1 ≠ row.auth_token) (hw2 : w2 ≠ row.auth_token) (hw3 : w3 ≠ row.auth_token)
    (hst1 : st1 = (PostgreSQLAuthenticationAgent.authenticate_customer st cid w1 t1).2)
    (hst2 : st2 = (PostgreSQLAuthenticationAgent.authenticate_customer st1 cid w2 t2).2)
    (hst3 : st3 = (PostgreSQLAuthenticationAgent.authenticate_customer st2 cid w3 t3).2) :
    PostgreSQLAuthenticationAgent.findCustomer st3.customers cid =
      some { row with failed_attempts := 3, locked_until := some (t3 + 15 * 60) } ∧
    (∀ (cred : String) (t4 : Nat), t4 < t3 + 15 * 60 →
       PostgreSQLAuthenticationAgent.authenticate_customer st3 cid cred t4 =
         ({ is_authenticated := false
            error_message := some "Account is temporarily locked due to multiple failed attempts" },
          st3)) := by
  have e1 := authenticate_wrong_cred st cid w1 t1 row h0
    (by simp [PostgreSQLAuthenticationAgent.lockedCheck, hl]) ha hw1
  have find1 : PostgreSQLAuthenticationAgent.findCustomer st1.customers cid =
      some { row with failed_attempts := 1, locked_until := none } := by
    rw [hst1, e1]
    dsimp only
    rw [findCustomer_update_fail, h0]
    simp [hf]
  have e2 := authenticate_wrong_cred st1 cid w2 t2
    { row with failed_attempts := 1, locked_until := none } find1 rfl ha hw2
  have find2 : PostgreSQLAuthenticationAgent.findCustomer st2.customers cid =
      some { row with failed_attempts := 2, locked_until := none } := by
    rw [hst2, e2]
    dsimp only
    rw [findCustomer_update_fail, find1]
    simp
  have e3 := authenticate_wrong_cred st2 cid w3 t3
    { row with failed_attempts := 2, locked_until := none } find2 rfl ha hw3
  have find3 : PostgreSQLAuthenticationAgent.findCustomer st3.customers cid =
      some { row with failed_attempts := 3, locked_until := some (t3 + 15 * 60) } := by
    rw [hst3, e3]
    dsimp only
    rw [findCustomer_update_fail, find2]
    simp
  refine ⟨find3, ?_⟩
  intro cred t4 hlt
  exact authenticate_locked st3 cid cred t4
    { row with failed_attempts := 3, locked_until := some (t3 + 15 * 60) } find3
    (by simp [PostgreSQLAuthenticationAgent.lockedCheck, hlt])

/-- Concrete customer row for the C1 witness scenario. -/
def c1w_row : CustomerRow :=
  { customer_id := "CUSTL", name := "L", email := "e", phone := "p"
    tier := "regular", account_status := "active", auth_token := "pw"
    last_login := none, failed_attempts := 0, locked_until := none }

/-- Initial agent state of the C1 witness scenario. -/
def c1w_st0 : PostgreSQLAuthenticationAgent.AgentState :=
  { customers := [c1w_row], session_tokens := [] }

/-- State after the first wrong attempt of the C1 witness scenario. -/
def c1w_st1 : PostgreSQLAuthenticationAgent.AgentState :=
  (PostgreSQLAuthenticationAgent.authenticate_customer c1w_st0 "CUSTL" "bad" 0).2

/-- State after the second wrong attempt of the C1 witness scenario. -/
def c1w_st2 : PostgreSQLAuthenticationAgent.AgentState :=
  (PostgreSQLAuthenticationAgent.authenticate_customer c1w_st1 "CUSTL" "bad" 0).2

/-- State after the third wrong attempt of the C1 witness scenario. -/
def c1w_st3 : PostgreSQLAuthenticationAgent.AgentState :=
  (PostgreSQLAuthenticationAgent.authenticate_customer c1w_st2 "CUSTL" "bad" 0).2

/-- Witness for C1 at a concrete one-customer database: three wrong attempts
at instant 0, then a fourth attempt with the correct credential at instant 100
inside the 15-minute window. -/
theorem c1_progressive_lockout_witness :
    ("bad" : String) ≠ "pw" ∧ (100 : Nat) < 0 + 15 * 60 ∧
    PostgreSQLAuthenticationAgent.findCustomer c1w_st3.customers "CUSTL" =
      some { c1w_row with failed_attempts := 3, locked_until := some (0 + 15 * 60) } ∧
    PostgreSQLAuthenticationAgent.authenticate_customer c1w_st3 "CUSTL" "pw" 100 =
      ({ is_authenticated := false
         error_message := some "Account is temporarily locked due to multiple failed attempts" },
       c1w_st3) := by
  have h := c1_progressive_lockout c1w_st0 c1w_st1 c1w_st2 c1w_st3 "CUSTL" "bad" "bad" "bad"
    0 0 0 c1w_row (by decide) rfl rfl rfl (by decide) (by decide) (by decide) rfl rfl rfl
  exact ⟨by decide, by decide, h.1, h.2 "pw" 100 (by decide)⟩

/-! ## C2 -/

/-- C2 (amended): a session token verifies to the freshly fetched record of
the associated customer for as long as it sits in the session table —
`verify_session_token` consults no clock, so this holds at every instant,
including past the 24-hour expiry embedded in the token — and after an
explicit `logout` revocation the token verifies to absent at every instant. -/
theorem c2_session_token_lifecycle
    (st : PostgreSQLAuthenticationAgent.AgentState) (tok cid : String)
    (row : CustomerRow) (tier : CustomerTier) (status : AccountStatus)
    (htok : dictLookup st.session_tokens tok = some cid)
    (hrow : PostgreSQLAuthenticationAgent.findCustomer st.customers cid = some row)
    (ht : CustomerTier.ofString? row.tier = some tier)
    (hs : AccountStatus.ofString? row.account_status = some status) :
    (∀ now : Nat, PostgreSQLAuthenticationAgent.verify_at now st tok =
       some { customer_id := row.customer_id, name := row.name, email := row.email
              phone := row.phone, tier := tier, account_status := status
              last_login := row.last_login, failed_attempts := row.failed_attempts
              locked_until := row.locked_until }) ∧
    (∀ now : Nat, PostgreSQLAuthenticationAgent.verify_at now
        (PostgreSQLAuthenticationAgent.logout st tok).2 tok = none) := by
  constructor
  · intro now
    unfold PostgreSQLAuthenticationAgent.verify_at
      PostgreSQLAuthenticationAgent.verify_session_token
    rw [htok]
    dsimp only
    unfold PostgreSQLAuthenticationAgent.get_customer_profile
    rw [hrow]
    dsimp only
    rw [ht, hs]
  · intro now
    unfold PostgreSQLAuthenticationAgent.verify_at
      PostgreSQLAuthenticationAgent.verify_session_token
      PostgreSQLAuthenticationAgent.logout
    rw [htok]
    simp [dictLookup_dictRemove]

/-- Witness for C2 at a concrete session table and customer row. -/
theorem c2_session_token_lifecycle_witness :
    PostgreSQLAuthenticationAgent.verify_at 12345
      { customers := [{ customer_id := "CUSTV", name := "V", email := "e", phone := "p"
                        tier := "vip", account_status := "active", auth_token := "pw"
                        last_login := none, failed_attempts := 0, locked_until := none }]
        session_tokens := [("tokV", "CUSTV")] } "tokV" =
      some { customer_id := "CUSTV", name := "V", email := "e", phone := "p"
             tier := .vip, account_status := .active
             last_login := none, failed_attempts := 0, locked_until := none } ∧
    PostgreSQLAuthenticationAgent.verify_at 12345
      (PostgreSQLAuthenticationAgent.logout
        { customers := [{ customer_id := "CUSTV", name := "V", email := "e", phone := "p"
                          tier := "vip", account_status := "active", auth_token := "pw"
                          last_login := none, failed_attempts := 0, locked_until := none }]
          session_tokens := [("tokV", "CUSTV")] } "tokV").2 "tokV" = none := by
  have h := c2_session_token_lifecycle
    { customers := [{ customer_id := "CUSTV", name := "V", email := "e", phone := "p"
                      tier := "vip", account_status := "active", auth_token := "pw"
                      last_login := none, failed_attempts := 0, locked_until := none }]
      session_tokens := [("tokV", "CUSTV")] } "tokV" "CUSTV"
    { customer_id := "CUSTV", name := "V", email := "e", phone := "p"
      tier := "vip", account_status := "active", auth_token := "pw"
      last_login := none, failed_attempts := 0, locked_until := none }
    CustomerTier.vip AccountStatus.active (by decide) (by decide) (by decide) (by decide)
  exact ⟨h.1 12345, h.2 12345⟩

/-- The customer row of the C2 counterexample scenario. -/
def c2x_row : CustomerRow :=
  { customer_id := "CUSTV", name := "V", email := "e", phone := "p"
    tier := "vip", account_status := "active", auth_token := "pw"
    last_login := none, failed_attempts := 0, locked_until := none }

/-- The agent state of the C2 counterexample scenario before authentication. -/
def c2x_st0 : PostgreSQLAuthenticationAgent.AgentState :=
  { customers := [c2x_row], session_tokens := [] }

/-- C2 counterexample: authentication at instant 0 issues a token whose
embedded expiry instant is 86400 (24 hours), yet at instant 90000 — after the
expiry instant has passed, with no revocation — verification still returns the
record of the customer instead of absent, because `verify_session_token` only tests
dict membership and never checks expiry. -/
theorem c2_counterexample :
    (PostgreSQLAuthenticationAgent.authenticate_customer c2x_st0 "CUSTV" "pw" 0).1.session_token
      = some (PostgreSQLAuthenticationAgent.generate_session_token "CUSTV" 0) ∧
    PostgreSQLAuthenticationAgent.session_token_exp 0 < 90000 ∧
    PostgreSQLAuthenticationAgent.verify_at 90000
      (PostgreSQLAuthenticationAgent.authenticate_customer c2x_st0 "CUSTV" "pw" 0).2
      (PostgreSQLAuthenticationAgent.generate_session_token "CUSTV" 0) =
      some { customer_id := "CUSTV", name := "V", email := "e", phone := "p"
             tier := .vip, account_status := .active
             last_login := some 0, failed_attempts := 0, locked_until := none } := by
  refine ⟨by decide, by decide, by decide⟩

/-! ## C4 -/

/-- C4 (amended): when a (truthy) customer identifier AND a (truthy) session
token are both supplied and verification returns absent, `process_customer_query`
returns the fixed session-expired result and leaves the state — ledger and
authentication agent alike — unchanged; since the result and state are fixed
independently of the classifier and handler parameters, neither intent
classification, permission checking nor fulfillment observably runs.  (Without
a customer identifier the identification step is skipped entirely; see the
counterexample.) -/
theorem c4_invalid_session_halts
    (llm : String → String) (handler : String → String → Option String → String)
    (st : BankingRMAgent.OrchState) (q c t : String)
    (cname at_ : Option String) (now : Nat)
    (hc : c ≠ "") (ht : t ≠ "")
    (hv : PostgreSQLAuthenticationAgent.verify_session_token st.auth t = none) :
    BankingRMAgent.process_customer_query llm handler st q
      (some c) cname at_ (some t) now = (BankingRMAgent.sessionExpiredEntry, st) := by
  unfold BankingRMAgent.process_customer_query BankingRMAgent.identifyStep
  have htc : BankingRMAgent.truthy (some c) = true := by simp [BankingRMAgent.truthy, hc]
  have htt : BankingRMAgent.truthy (some t) = true := by simp [BankingRMAgent.truthy, ht]
  rw [htc, htt]
  simp only [Bool.or_true, Bool.and_true, if_true]
  have hg : (some t).getD "" = t := rfl
  rw [hg, hv]

/-- Witness for C4: a non-empty customer id with an unknown session token on
the empty session table. -/
theorem c4_invalid_session_halts_witness :
    ("CUST001" : String) ≠ "" ∧ ("badtoken" : String) ≠ "" ∧
    BankingRMAgent.process_customer_query (fun _ => "ACCOUNT_BALANCE") (fun _ _ _ => "r")
      { auth := { customers := [], session_tokens := [] }, conversation_history := [] }
      "What is my balance?" (some "CUST001") none none (some "badtoken") 3 =
      (BankingRMAgent.sessionExpiredEntry,
       { auth := { customers := [], session_tokens := [] }, conversation_history := [] }) := by
  refine ⟨by decide, by decide, ?_⟩
  exact c4_invalid_session_halts (fun _ => "ACCOUNT_BALANCE") (fun _ _ _ => "r")
    { auth := { customers := [], session_tokens := [] }, conversation_history := [] }
    "What is my balance?" "CUST001" "badtoken" none none 3
    (by decide) (by decide) (by decide)

/-- C4 counterexample: a session token supplied WITHOUT a customer identifier
is never verified — the pipeline proceeds through classification and records a
normal entry instead of halting with the authentication-rejected result,
contradicting the clause "regardless of whether a customer identifier was
also supplied". -/
theorem c4_counterexample :
    (BankingRMAgent.process_customer_query (fun _ => "OUT_OF_SCOPE") (fun _ _ _ => "r")
        { auth := { customers := [], session_tokens := [] }, conversation_history := [] }
        "hello" none none none (some "garbage-token") 0).1.intent = "OUT_OF_SCOPE" ∧
    (BankingRMAgent.process_customer_query (fun _ => "OUT_OF_SCOPE") (fun _ _ _ => "r")
        { auth := { customers := [], session_tokens := [] }, conversation_history := [] }
        "hello" none none none (some "garbage-token") 0).1.error = none ∧
    (BankingRMAgent.process_customer_query (fun _ => "OUT_OF_SCOPE") (fun _ _ _ => "r")
        { auth := { customers := [], session_tokens := [] }, conversation_history := [] }
        "hello" none none none (some "garbage-token") 0).2.conversation_history.length = 1 ∧
    (BankingRMAgent.process_customer_query (fun _ => "OUT_OF_SCOPE") (fun _ _ _ => "r")
        { auth := { customers := [], session_tokens := [] }, conversation_history := [] }
        "hello" none none none (some "garbage-token") 0).1 ≠
      BankingRMAgent.sessionExpiredEntry := by
  refine ⟨by decide, by decide, by decide, by decide⟩

/-! ## C3 -/

/-- C3 (amended): for every `process_customer_query` run whose identification
step succeeds and which is not terminated by a permission denial — i.e. for
deflected and fulfilled outcomes — exactly one entry carrying the query text,
intent label, supported flag and timestamp is appended to the conversation
ledger, and the returned result is that appended entry.  (Authentication
rejection and permission denial both return without appending.) -/
theorem c3_ledger_append
    (llm : String → String) (handler : String → String → Option String → String)
    (st : BankingRMAgent.OrchState) (q : String)
    (cid cname at_ stok : Option String) (now : Nat)
    (p : Option CustomerProfile) (a' : PostgreSQLAuthenticationAgent.AgentState)
    (e : BankingRMAgent.ResponseData) (st' : BankingRMAgent.OrchState)
    (h0 : BankingRMAgent.identifyStep st.auth cid at_ stok now = Except.ok (p, a'))
    (hperm : ∀ prof, p = some prof →
      IntentClassifierAgent.is_supported_intent (IntentClassifierAgent.classify_intent llm q) = true →
      PostgreSQLAuthenticationAgent.check_permissions prof
        (IntentClassifierAgent.classify_intent llm q) = true)
    (hrun : BankingRMAgent.process_customer_query llm handler st q cid cname at_ stok now
      = (e, st')) :
    st'.conversation_history = st.conversation_history ++ [e] ∧
    e.query = some q ∧
    e.intent = IntentClassifierAgent.classify_intent llm q ∧
    e.supported = some (IntentClassifierAgent.is_supported_intent
      (IntentClassifierAgent.classify_intent llm q)) ∧
    e.timestamp = some now := by
  unfold BankingRMAgent.process_customer_query at hrun
  rw [h0] at hrun
  dsimp only at hrun
  cases p with
  | none =>
      dsimp only at hrun
      cases hrun
      exact ⟨rfl, rfl, rfl, rfl, rfl⟩
  | some prof =>
      dsimp only at hrun
      have hcond : (IntentClassifierAgent.is_supported_intent
          (IntentClassifierAgent.classify_intent llm q) &&
          !(PostgreSQLAuthenticationAgent.check_permissions prof
            (IntentClassifierAgent.classify_intent llm q))) = false := by
        cases hsup : IntentClassifierAgent.is_supported_intent
            (IntentClassifierAgent.classify_intent llm q)
        · simp
        · simp [hperm prof rfl hsup]
      rw [hcond] at hrun
      simp only [Bool.false_eq_true, if_false] at hrun
      cases hrun
      exact ⟨rfl, rfl, rfl, rfl, rfl⟩

/-- The single ledger entry of the C3 witness run. -/
def c3w_entry : BankingRMAgent.ResponseData :=
  { response := "resp", intent := "GENERAL_BANKING", supported := some true
    timestamp := some 7, query := some "q1" }

/-- The final orchestrator state of the C3 witness run. -/
def c3w_state : BankingRMAgent.OrchState :=
  { auth := { customers := [], session_tokens := [] }, conversation_history := [c3w_entry] }

/-- Witness for C3: an unauthenticated supported query appends exactly its own
result entry. -/
theorem c3_ledger_append_witness :
    c3w_state.conversation_history = ([] : List BankingRMAgent.ResponseData) ++ [c3w_entry] ∧
    c3w_entry.query = some "q1" ∧
    c3w_entry.intent = IntentClassifierAgent.classify_intent (fun _ => "GENERAL_BANKING") "q1" ∧
    c3w_entry.supported = some (IntentClassifierAgent.is_supported_intent
      (IntentClassifierAgent.classify_intent (fun _ => "GENERAL_BANKING") "q1")) ∧
    c3w_entry.timestamp = some 7 :=
  c3_ledger_append (fun _ => "GENERAL_BANKING") (fun _ _ _ => "resp")
    { auth := { customers := [], session_tokens := [] }, conversation_history := [] }
    "q1" none none none none 7 none { customers := [], session_tokens := [] }
    c3w_entry c3w_state rfl (fun prof h => nomatch h) (by decide)

/-- The customer row of the C3 counterexample (a Regular-tier customer). -/
def c3x_row : CustomerRow :=
  { customer_id := "CUSTR", name := "R", email := "e", phone := "p"
    tier := "regular", account_status := "active", auth_token := "pw"
    last_login := none, failed_attempts := 0, locked_until := none }

/-- C3 counterexample: a permission-denied run (Regular tier asking for
REMITTANCE_STATUS over a valid session) returns the denial result but appends
nothing to the ledger, contradicting the claim that permission denials are
recorded. -/
theorem c3_counterexample :
    (BankingRMAgent.process_customer_query (fun _ => "REMITTANCE_STATUS") (fun _ _ _ => "resp")
        { auth := { customers := [c3x_row], session_tokens := [("tokR", "CUSTR")] }
          conversation_history := [] }
        "What is the status of my remittance?" (some "CUSTR") none none (some "tokR")
        0).1.error = some "Insufficient permissions" ∧
    (BankingRMAgent.process_customer_query (fun _ => "REMITTANCE_STATUS") (fun _ _ _ => "resp")
        { auth := { customers := [c3x_row], session_tokens := [("tokR", "CUSTR")] }
          conversation_history := [] }
        "What is the status of my remittance?" (some "CUSTR") none none (some "tokR")
        0).2.conversation_history.length = 0 := by
  refine ⟨by decide, by decide⟩

/-! ## C6 -/

/-- C6 (amended): a query whose resolved intent is outside the supported
subset is answered with the canned deflection text, is recorded in the ledger,
and runs independently of the fulfilment handler; the statistics figure the
source derives for out-of-scope traffic (`out_of_scope_queries`) grows by 1
exactly when the resolved intent is the literal OUT_OF_SCOPE label, and is
unchanged for the other unsupported intents. -/
theorem c6_unsupported_deflected
    (llm : String → String) (handler : String → String → Option String → String)
    (st : BankingRMAgent.OrchState) (q : String)
    (cid cname at_ stok : Option String) (now : Nat)
    (p : Option CustomerProfile) (a' : PostgreSQLAuthenticationAgent.AgentState)
    (e : BankingRMAgent.ResponseData) (st' : BankingRMAgent.OrchState)
    (h0 : BankingRMAgent.identifyStep st.auth cid at_ stok now = Except.ok (p, a'))
    (hun : IntentClassifierAgent.is_supported_intent
      (IntentClassifierAgent.classify_intent llm q) = false)
    (hrun : BankingRMAgent.process_customer_query llm handler st q cid cname at_ stok now
      = (e, st')) :
    e.response = Config.APOLOGY_MESSAGE ∧
    st'.conversation_history = st.conversation_history ++ [e] ∧
    (∀ now2 : Nat, (BankingRMAgent.get_agent_statistics st' now2).out_of_scope_queries =
       (BankingRMAgent.get_agent_statistics st now2).out_of_scope_queries +
       (if IntentClassifierAgent.classify_intent llm q = "OUT_OF_SCOPE" then 1 else 0)) ∧
    (∀ handler2 : String → String → Option String → String,
       BankingRMAgent.process_customer_query llm handler2 st q cid cname at_ stok now
         = (e, st')) := by
  have hred : ∀ h2 : String → String → Option String → String,
      BankingRMAgent.process_customer_query llm h2 st q cid cname at_ stok now =
        ({ response := Config.APOLOGY_MESSAGE
           intent := IntentClassifierAgent.classify_intent llm q
           supported := some false
           customer_id := cid
           customer_name := cname
           customer_profile := p
           timestamp := some now
           query := some q },
         { auth := a'
           conversation_history := st.conversation_history ++
             [{ response := Config.APOLOGY_MESSAGE
                intent := IntentClassifierAgent.classify_intent llm q
                supported := some false
                customer_id := cid
                customer_name := cname
                customer_profile := p
                timestamp := some now
                query := some q }] }) := by
    intro h2
    unfold BankingRMAgent.process_customer_query
    rw [h0]
    dsimp only
    cases p with
    | none =>
        dsimp only
        rw [hun]
        simp only [Bool.false_eq_true, if_false]
    | some prof =>
        dsimp only
        rw [hun]
        simp only [Bool.false_and, Bool.false_eq_true, if_false]
  rw [hred handler] at hrun
  cases hrun
  refine ⟨rfl, rfl, ?_, fun h2 => hred h2⟩
  intro now2
  simp only [BankingRMAgent.get_agent_statistics, List.filter_append, List.length_append]
  by_cases hoos : IntentClassifierAgent.classify_intent llm q = "OUT_OF_SCOPE"
  · simp [List.filter_cons, hoos]
  · simp [List.filter_cons, hoos]

/-- The ledger entry of the C6 witness run (unsupported LOAN_INQUIRY intent). -/
def c6w_entry : BankingRMAgent.ResponseData :=
  { response := Config.APOLOGY_MESSAGE, intent := "LOAN_INQUIRY", supported := some false
    timestamp := some 9, query := some "loan?" }

/-- The final orchestrator state of the C6 witness run. -/
def c6w_state : BankingRMAgent.OrchState :=
  { auth := { customers := [], session_tokens := [] }, conversation_history := [c6w_entry] }

set_option maxRecDepth 8192 in
/-- Witness for C6 at a concrete unsupported-intent run. -/
theorem c6_unsupported_deflected_witness :
    c6w_entry.response = Config.APOLOGY_MESSAGE ∧
    c6w_state.conversation_history = ([] : List BankingRMAgent.ResponseData) ++ [c6w_entry] ∧
    (BankingRMAgent.get_agent_statistics c6w_state 9).out_of_scope_queries =
      (BankingRMAgent.get_agent_statistics
        { auth := { customers := [], session_tokens := [] }, conversation_history := [] }
        9).out_of_scope_queries +
      (if IntentClassifierAgent.classify_intent (fun _ => "LOAN_INQUIRY") "loan?" = "OUT_OF_SCOPE"
       then 1 else 0) ∧
    BankingRMAgent.process_customer_query (fun _ => "LOAN_INQUIRY") (fun _ _ _ => "other")
      { auth := { customers := [], session_tokens := [] }, conversation_history := [] }
      "loan?" none none none none 9 = (c6w_entry, c6w_state) := by
  have h := c6_unsupported_deflected (fun _ => "LOAN_INQUIRY") (fun _ _ _ => "resp")
    { auth := { customers := [], session_tokens := [] }, conversation_history := [] }
    "loan?" none none none none 9 none { customers := [], session_tokens := [] }
    c6w_entry c6w_state rfl (by decide) (by decide)
  exact ⟨h.1, h.2.1, h.2.2.1 9, h.2.2.2 (fun _ _ _ => "other")⟩

set_option maxRecDepth 8192 in
/-- C6 counterexample: a query resolved to CARD_SERVICES — unsupported but not
the OUT_OF_SCOPE label — is answered with the canned deflection and recorded,
yet the unsupported figure of the statistics stays at 0 rather than increasing by 1. -/
theorem c6_counterexample :
    (BankingRMAgent.process_customer_query (fun _ => "CARD_SERVICES") (fun _ _ _ => "resp")
        { auth := { customers := [], session_tokens := [] }, conversation_history := [] }
        "block my card" none none none none 0).1.response = Config.APOLOGY_MESSAGE ∧
    (BankingRMAgent.process_customer_query (fun _ => "CARD_SERVICES") (fun _ _ _ => "resp")
        { auth := { customers := [], session_tokens := [] }, conversation_history := [] }
        "block my card" none none none none 0).2.conversation_history.length = 1 ∧
    (BankingRMAgent.get_agent_statistics
      (BankingRMAgent.process_customer_query (fun _ => "CARD_SERVICES") (fun _ _ _ => "resp")
        { auth := { customers := [], session_tokens := [] }, conversation_history := [] }
        "block my card" none none none none 0).2 0).out_of_scope_queries = 0 ∧
    (BankingRMAgent.get_agent_statistics
      { auth := { customers := [], session_tokens := [] }, conversation_history := [] }
      0).out_of_scope_queries = 0 := by
  refine ⟨by decide, by decide, by decide, by decide⟩

/-! ## C7 -/

set_option maxRecDepth 8192 in
/-- C7: the total count and the intent frequency table are consistent with the
ledger, but the supported-count is not — the statistics scan reads the key
"is_supported" while recorded entries carry the key "supported" (the key the
rest of the code and the tests expect), so a ledger holding exactly one entry
whose supported flag is true still reports `supported_queries = 0`. -/
theorem c7_supported_count_key_bug :
    ((BankingRMAgent.process_customer_query (fun _ => "ACCOUNT_BALANCE") (fun _ _ _ => "resp")
        { auth := { customers := [], session_tokens := [] }, conversation_history := [] }
        "What is my balance?" none none none none
        0).2.conversation_history.filter (fun e2 => e2.supported == some true)).length = 1 ∧
    (BankingRMAgent.get_agent_statistics
      (BankingRMAgent.process_customer_query (fun _ => "ACCOUNT_BALANCE") (fun _ _ _ => "resp")
        { auth := { customers := [], session_tokens := [] }, conversation_history := [] }
        "What is my balance?" none none none none 0).2 0).supported_queries = 0 ∧
    (BankingRMAgent.get_agent_statistics
      (BankingRMAgent.process_customer_query (fun _ => "ACCOUNT_BALANCE") (fun _ _ _ => "resp")
        { auth := { customers := [], session_tokens := [] }, conversation_history := [] }
        "What is my balance?" none none none none 0).2 0).total_queries = 1 ∧
    (BankingRMAgent.get_agent_statistics
      (BankingRMAgent.process_customer_query (fun _ => "ACCOUNT_BALANCE") (fun _ _ _ => "resp")
        { auth := { customers := [], session_tokens := [] }, conversation_history := [] }
        "What is my balance?" none none none none 0).2 0).intent_distribution
      "ACCOUNT_BALANCE" = 1 := by
  refine ⟨by decide, by decide, by decide, by decide⟩
